import Mathlib

/-!
Verification of the DrawTrigger Azure Function
(`src/artifacts/function/DrawTrigger/__init__.py`).

The function consists of an artifact pipeline (subscription enumeration,
topology collection, JSON persist, diagram generation, three blob uploads)
followed by a daily metering gate.  We embed the control flow of `main` and
each metering helper shallowly: external effects (HTTP calls, blob reads and
writes) are driven by an environment record describing the outcome the
outside world would give each call, and every attempted call is recorded in a
trace.  Durable blob storage is an association list from blob name to
content; `upload_blob` with `overwrite=True` replaces any previous entry.
-/

set_option autoImplicit false

namespace DrawTrigger

/-- Durable blob storage: an association list from blob name to blob content.
The first entry for a key is the current content. -/
abbrev Storage := List (String × String)

/-- Look up the current content of a blob. -/
def lookupBlob : Storage → String → Option String
  | [], _ => none
  | (k, v) :: rest, blob => if k = blob then some v else lookupBlob rest blob

/-- `blob_client.upload_blob(data, overwrite=True)`: write `content` under
`blob`, replacing any existing entry for that name. -/
def upload_blob (s : Storage) (blob content : String) : Storage :=
  (blob, content) :: s.filter (fun p => p.1 ≠ blob)

/-- Errors a blob-properties query can raise: the `ResourceNotFoundError`
that `has_billed_today` catches, or any other storage failure. -/
inductive StorageError
  | notFound
  | other
deriving DecidableEq

/-- `blob_client.get_blob_properties()`: succeeds when the blob exists,
raises `ResourceNotFoundError` when it does not, and raises some other
error when the query itself fails (`fault` injects that failure). -/
def get_blob_properties (s : Storage) (fault : Bool) (blob : String) :
    Except StorageError Unit :=
  if fault then .error .other
  else match lookupBlob s blob with
    | some _ => .ok ()
    | none => .error .notFound

/-- The marker blob key `billing/dailyRun_<YYYY-MM-DD>.marker` built from the
UTC date string `today` (lines 178 and 190 of the source). -/
def markerBlobName (today : String) : String :=
  "billing/dailyRun_" ++ today ++ ".marker"

/-- `has_billed_today` (lines 175-184): reads the UTC date `today` at call
time, queries the properties of the marker blob, returns `true` on success,
`false` on `ResourceNotFoundError`, and lets any other error propagate. -/
def has_billed_today (s : Storage) (fault : Bool) (today : String) :
    Except Unit Bool :=
  let blob_name := markerBlobName today
  match get_blob_properties s fault blob_name with
  | .ok _ => .ok true
  | .error .notFound => .ok false
  | .error .other => .error ()

/-- `mark_billed_today` (lines 187-192): reads the UTC date `today` at call
time and writes an empty marker blob with `overwrite=True`. -/
def mark_billed_today (s : Storage) (today : String) : Storage :=
  upload_blob s (markerBlobName today) ""

/-- Python truthiness of `os.environ.get(...)`: `None` (variable absent) and
the empty string are falsy; `if not x` fires exactly on these. -/
def envTruthy : Option String → Bool
  | none => false
  | some s => !s.isEmpty

/-- One attempted external call of a run, in the order attempted. -/
inductive Call
  | listSubs
  | getTopology
  | writeJson
  | genDiagrams
  | uploadBlob (blobName : String)
  | markerCheck (blobName : String)
  | tokenFetch
  | resolve (subscriptionId resourceGroupName : String)
  | emit (resourceId planId : String)
  | markerWrite (blobName : String)
deriving DecidableEq

/-- Whether a call is the managed-identity token fetch. -/
def Call.isTokenFetch : Call → Bool
  | .tokenFetch => true
  | _ => false

/-- Whether a call is the resource-resolution request. -/
def Call.isResolve : Call → Bool
  | .resolve _ _ => true
  | _ => false

/-- Whether a call is the usage-emission request. -/
def Call.isEmit : Call → Bool
  | .emit _ _ => true
  | _ => false

/-- Whether a call is the marker write. -/
def Call.isMarkerWrite : Call → Bool
  | .markerWrite _ => true
  | _ => false

/-- Whether a call is a billable side effect: token fetch, resolution, or
emission. -/
def Call.isBillable (c : Call) : Bool :=
  c.isTokenFetch || c.isResolve || c.isEmit

/-- Environment of one metering phase: the UTC dates observed by the marker
check and the marker write, and the outcome the outside world gives each
external call.  `none` for `tokenResult` or `resolveResult` means the HTTP
request raises; `emitOk = false` means `raise_for_status` fires on the
usage post; the fault flags inject storage failures. -/
structure MeterEnv where
  checkDate : String
  writeDate : String
  markerQueryFault : Bool
  tokenResult : Option String
  subscription_id : Option String
  resource_group_name : Option String
  plan_id : Option String
  resolveResult : Option String
  emitOk : Bool
  markerWriteFault : Bool

/-- Exceptions the metering try-block can raise, by raising site. -/
inductive MeterError
  | markerQuery
  | auth
  | resolution
  | emission
  | markerWrite
deriving DecidableEq

/-- Terminal state of the metering phase, named per control path. -/
inductive MeterOutcome
  | SkippedAlreadyBilled
  | SkippedMissingConfig
  | Billed
  | FailedMarkerQuery
  | FailedAuth
  | FailedResolution
  | FailedEmission
  | FailedMarkerWrite
deriving DecidableEq

/-- The terminal state the catch-all handler records for each raised
exception. -/
def MeterError.toOutcome : MeterError → MeterOutcome
  | .markerQuery => .FailedMarkerQuery
  | .auth => .FailedAuth
  | .resolution => .FailedResolution
  | .emission => .FailedEmission
  | .markerWrite => .FailedMarkerWrite

/-- Body of the metering try-block (lines 107-125): check the marker, then
fetch the MSI token, then read and check the three configuration variables,
then resolve the managed-app resource id, emit the usage event, and write
the marker.  A raised exception is an `Except.error` carrying the calls
already attempted; storage is only mutated by a successful marker write. -/
def metering_attempt (env : MeterEnv) (s : Storage) :
    Except (MeterError × List Call) (MeterOutcome × List Call × Storage) :=
  let checkCall := Call.markerCheck (markerBlobName env.checkDate)
  match has_billed_today s env.markerQueryFault env.checkDate with
  | .error _ => .error (.markerQuery, [checkCall])
  | .ok true => .ok (.SkippedAlreadyBilled, [checkCall], s)
  | .ok false =>
    match env.tokenResult with
    | none => .error (.auth, [checkCall, .tokenFetch])
    | some _msi_token =>
      if !envTruthy env.subscription_id || !envTruthy env.resource_group_name
          || !envTruthy env.plan_id then
        .ok (.SkippedMissingConfig, [checkCall, .tokenFetch], s)
      else
        let sid := env.subscription_id.getD ""
        let rg := env.resource_group_name.getD ""
        let pid := env.plan_id.getD ""
        match env.resolveResult with
        | none => .error (.resolution, [checkCall, .tokenFetch, .resolve sid rg])
        | some resource_id =>
          if !env.emitOk then
            .error (.emission,
              [checkCall, .tokenFetch, .resolve sid rg, .emit resource_id pid])
          else
            let writeCall := Call.markerWrite (markerBlobName env.writeDate)
            if env.markerWriteFault then
              .error (.markerWrite,
                [checkCall, .tokenFetch, .resolve sid rg, .emit resource_id pid,
                 writeCall])
            else
              .ok (.Billed,
                [checkCall, .tokenFetch, .resolve sid rg, .emit resource_id pid,
                 writeCall],
                mark_billed_today s env.writeDate)

/-- The metering phase with its catch-all handler (lines 106-128): every
exception raised inside `metering_attempt` is caught and logged, leaving the
storage as it was at the raise. -/
def metering_phase (env : MeterEnv) (s : Storage) :
    MeterOutcome × List Call × Storage :=
  match metering_attempt env s with
  | .ok r => r
  | .error (e, cs) => (e.toOutcome, cs, s)

/-- `upload_file` (lines 90-98): attempts one blob upload; `ok = false`
means the upload raises.  The helper catches every exception itself and
only logs, so it always returns and always records the attempted call. -/
def upload_file (ok : Bool) (blob_name : String) : List Call :=
  match (if ok then Except.ok () else Except.error ()) with
  | Except.ok _ => [Call.uploadBlob blob_name]
  | Except.error (_ : Unit) => [Call.uploadBlob blob_name]

/-- Environment of one full run of `main`: success of each artifact stage,
the storage configuration variables, the outcome of each upload, and the
metering environment. -/
structure MainEnv where
  listSubsOk : Bool
  topologyOk : Bool
  writeJsonOk : Bool
  diagramsOk : Bool
  drawing_storage_url : Option String
  drawing_container_name : Option String
  uploadJsonOk : Bool
  uploadMldOk : Bool
  uploadHldOk : Bool
  meter : MeterEnv

/-- Result of one run: the trace of attempted calls, the metering outcome
(`none` when `main` returned before the metering phase), and the final
storage. -/
structure RunResult where
  calls : List Call
  meterOutcome : Option MeterOutcome
  storage : Storage

/-- `main` (lines 18-130): each artifact stage runs in its own try-block
that returns from the function on failure; the storage-configuration check
(lines 83-85) also returns on a falsy variable.  Only after the three
uploads does the metering phase run, and it always completes. -/
def main (e : MainEnv) (s : Storage) (timestamp : String) : RunResult :=
  if !e.listSubsOk then ⟨[.listSubs], none, s⟩
  else if !e.topologyOk then ⟨[.listSubs, .getTopology], none, s⟩
  else
    let json_file_name := timestamp ++ "_network_topology.json"
    if !e.writeJsonOk then ⟨[.listSubs, .getTopology, .writeJson], none, s⟩
    else
      let diagram_file_name_mld := timestamp ++ "_network_diagram_MLD.drawio"
      let diagram_file_name_hld := timestamp ++ "_network_diagram_HLD.drawio"
      if !e.diagramsOk then
        ⟨[.listSubs, .getTopology, .writeJson, .genDiagrams], none, s⟩
      else if !envTruthy e.drawing_storage_url
          || !envTruthy e.drawing_container_name then
        ⟨[.listSubs, .getTopology, .writeJson, .genDiagrams], none, s⟩
      else
        let upCalls := upload_file e.uploadJsonOk json_file_name
          ++ upload_file e.uploadMldOk diagram_file_name_mld
          ++ upload_file e.uploadHldOk diagram_file_name_hld
        let r := metering_phase e.meter s
        ⟨[.listSubs, .getTopology, .writeJson, .genDiagrams] ++ upCalls ++ r.2.1,
         some r.1, r.2.2⟩

/-! Section: Helper lemmas -/

/-- Looking up the blob just written finds the written content. -/
theorem lookupBlob_upload_self (s : Storage) (blob content : String) :
    lookupBlob (upload_blob s blob content) blob = some content := by
  simp [upload_blob, lookupBlob]

/-- Writing the same blob content twice leaves the storage it left after
one write. -/
theorem upload_blob_idem (s : Storage) (blob content : String) :
    upload_blob (upload_blob s blob content) blob content
      = upload_blob s blob content := by
  simp only [upload_blob, List.filter_cons]
  rw [if_neg (by simp), List.filter_filter]
  simp

/-- The marker key determines the date: distinct dates give distinct marker
blob names. -/
theorem markerBlobName_inj (a b : String)
    (h : markerBlobName a = markerBlobName b) : a = b := by
  unfold markerBlobName at h
  have h2 : ("billing/dailyRun_".data ++ a.data) ++ ".marker".data
      = ("billing/dailyRun_".data ++ b.data) ++ ".marker".data := by
    have := congrArg String.data h
    simpa [String.data_append] using this
  have h3 : "billing/dailyRun_".data ++ a.data
      = "billing/dailyRun_".data ++ b.data :=
    List.append_cancel_right h2
  have h4 : a.data = b.data := List.append_cancel_left h3
  exact congrArg String.mk h4

/-- `upload_file` never raises: both the success and the failure branch of
its try-block produce the same single recorded upload call. -/
theorem upload_file_eq (ok : Bool) (blob_name : String) :
    upload_file ok blob_name = [Call.uploadBlob blob_name] := by
  cases ok <;> rfl

/-- A default metering environment used by the concrete witnesses: marker
absent, configuration complete, every call succeeds. -/
def happyMeterEnv : MeterEnv where
  checkDate := "2025-06-01"
  writeDate := "2025-06-01"
  markerQueryFault := false
  tokenResult := some "tok"
  subscription_id := some "sub-1"
  resource_group_name := some "rg-1"
  plan_id := some "plan-1"
  resolveResult := some "/subs/1/rg/app"
  emitOk := true
  markerWriteFault := false

/-- The full sequence of metering calls a run can attempt, in program
order; every actual trace is a prefix of this sequence. -/
def meterCallSeq (env : MeterEnv) : List Call :=
  [Call.markerCheck (markerBlobName env.checkDate),
   Call.tokenFetch,
   Call.resolve (env.subscription_id.getD "") (env.resource_group_name.getD ""),
   Call.emit (env.resolveResult.getD "") (env.plan_id.getD ""),
   Call.markerWrite (markerBlobName env.writeDate)]

/-- The configuration guard of line 116: true when any of the three
metering variables is falsy. -/
def configMissing (env : MeterEnv) : Bool :=
  !envTruthy env.subscription_id || !envTruthy env.resource_group_name
    || !envTruthy env.plan_id

/-- Exhaustive description of the metering phase: exactly one of the eight
control paths is taken, and each determines the outcome, the trace (a
prefix of `meterCallSeq`), and the final storage. -/
theorem metering_phase_cases (env : MeterEnv) (s : Storage) :
    (has_billed_today s env.markerQueryFault env.checkDate = Except.error () ∧
      metering_phase env s =
        (MeterOutcome.FailedMarkerQuery, (meterCallSeq env).take 1, s)) ∨
    (has_billed_today s env.markerQueryFault env.checkDate = Except.ok true ∧
      metering_phase env s =
        (MeterOutcome.SkippedAlreadyBilled, (meterCallSeq env).take 1, s)) ∨
    (has_billed_today s env.markerQueryFault env.checkDate = Except.ok false ∧
      env.tokenResult = none ∧
      metering_phase env s =
        (MeterOutcome.FailedAuth, (meterCallSeq env).take 2, s)) ∨
    (has_billed_today s env.markerQueryFault env.checkDate = Except.ok false ∧
      env.tokenResult.isSome = true ∧ configMissing env = true ∧
      metering_phase env s =
        (MeterOutcome.SkippedMissingConfig, (meterCallSeq env).take 2, s)) ∨
    (has_billed_today s env.markerQueryFault env.checkDate = Except.ok false ∧
      env.tokenResult.isSome = true ∧ configMissing env = false ∧
      env.resolveResult = none ∧
      metering_phase env s =
        (MeterOutcome.FailedResolution, (meterCallSeq env).take 3, s)) ∨
    (has_billed_today s env.markerQueryFault env.checkDate = Except.ok false ∧
      env.tokenResult.isSome = true ∧ configMissing env = false ∧
      env.resolveResult.isSome = true ∧ env.emitOk = false ∧
      metering_phase env s =
        (MeterOutcome.FailedEmission, (meterCallSeq env).take 4, s)) ∨
    (has_billed_today s env.markerQueryFault env.checkDate = Except.ok false ∧
      env.tokenResult.isSome = true ∧ configMissing env = false ∧
      env.resolveResult.isSome = true ∧ env.emitOk = true ∧
      env.markerWriteFault = true ∧
      metering_phase env s =
        (MeterOutcome.FailedMarkerWrite, (meterCallSeq env).take 5, s)) ∨
    (has_billed_today s env.markerQueryFault env.checkDate = Except.ok false ∧
      env.tokenResult.isSome = true ∧ configMissing env = false ∧
      env.resolveResult.isSome = true ∧ env.emitOk = true ∧
      env.markerWriteFault = false ∧
      metering_phase env s =
        (MeterOutcome.Billed, (meterCallSeq env).take 5,
          mark_billed_today s env.writeDate)) := by
  cases hcheck : has_billed_today s env.markerQueryFault env.checkDate with
  | error u =>
    exact Or.inl ⟨rfl, by
      simp [metering_phase, metering_attempt, meterCallSeq, MeterError.toOutcome,
        hcheck]⟩
  | ok b =>
    cases b with
    | true =>
      exact Or.inr (Or.inl ⟨rfl, by
        simp [metering_phase, metering_attempt, meterCallSeq, hcheck]⟩)
    | false =>
      cases htok : env.tokenResult with
      | none =>
        exact Or.inr (Or.inr (Or.inl ⟨rfl, rfl, by
          simp [metering_phase, metering_attempt, meterCallSeq,
            MeterError.toOutcome, hcheck, htok]⟩))
      | some t =>
        by_cases hcfg : (!envTruthy env.subscription_id
            || !envTruthy env.resource_group_name
            || !envTruthy env.plan_id) = true
        · exact Or.inr (Or.inr (Or.inr (Or.inl ⟨rfl, by simp,
            by simpa [configMissing] using hcfg, by
              simp [metering_phase, metering_attempt, meterCallSeq, hcheck,
                htok, hcfg]⟩)))
        · have hcfg2 : (!envTruthy env.subscription_id
              || !envTruthy env.resource_group_name
              || !envTruthy env.plan_id) = false := by
            simpa using hcfg
          cases hres : env.resolveResult with
          | none =>
            exact Or.inr (Or.inr (Or.inr (Or.inr (Or.inl ⟨rfl, by simp,
              by simpa [configMissing] using hcfg2, rfl, by
                simp [metering_phase, metering_attempt, meterCallSeq,
                  MeterError.toOutcome, hcheck, htok, hcfg2, hres]⟩))))
          | some rid =>
            cases hemit : env.emitOk with
            | false =>
              exact Or.inr (Or.inr (Or.inr (Or.inr (Or.inr (Or.inl
                ⟨rfl, by simp, by simpa [configMissing] using hcfg2,
                 by simp, rfl, by
                  simp [metering_phase, metering_attempt, meterCallSeq,
                    MeterError.toOutcome, hcheck, htok, hcfg2, hres, hemit]⟩)))))
            | true =>
              cases hwf : env.markerWriteFault with
              | true =>
                exact Or.inr (Or.inr (Or.inr (Or.inr (Or.inr (Or.inr (Or.inl
                  ⟨rfl, by simp, by simpa [configMissing] using hcfg2,
                   by simp, rfl, rfl, by
                    simp [metering_phase, metering_attempt, meterCallSeq,
                      MeterError.toOutcome, hcheck, htok, hcfg2, hres, hemit,
                      hwf]⟩))))))
              | false =>
                exact Or.inr (Or.inr (Or.inr (Or.inr (Or.inr (Or.inr (Or.inr
                  ⟨rfl, by simp, by simpa [configMissing] using hcfg2,
                   by simp, rfl, rfl, by
                    simp [metering_phase, metering_attempt, meterCallSeq,
                      MeterError.toOutcome, hcheck, htok, hcfg2, hres, hemit,
                      hwf]⟩))))))

/-- Every metering trace is a prefix of the full call sequence. -/
theorem metering_phase_calls_take (env : MeterEnv) (s : Storage) :
    ∃ n, (metering_phase env s).2.1 = (meterCallSeq env).take n := by
  rcases metering_phase_cases env s with
    ⟨_, h⟩ | ⟨_, h⟩ | ⟨_, _, h⟩ | ⟨_, _, _, h⟩ | ⟨_, _, _, _, h⟩ |
    ⟨_, _, _, _, _, h⟩ | ⟨_, _, _, _, _, _, h⟩ | ⟨_, _, _, _, _, _, h⟩ <;>
    exact ⟨_, by rw [h]⟩

/-! Section: C7 — `exists` maps exactly "not found" to `false` -/

/-- Claim C7: the marker existence check returns `false` exactly when the
properties query answers "not found" for the marker blob of day `d`, and it
propagates a query failure exactly when the query raises any other error. -/
theorem c7_exists_false_iff_notFound (s : Storage) (fault : Bool) (d : String) :
    (has_billed_today s fault d = .ok false ↔
      get_blob_properties s fault (markerBlobName d) = .error .notFound) ∧
    (has_billed_today s fault d = .error () ↔
      get_blob_properties s fault (markerBlobName d) = .error .other) := by
  unfold has_billed_today
  cases hq : get_blob_properties s fault (markerBlobName d) with
  | ok u => simp [hq]
  | error err => cases err <;> simp [hq]

/-! Section: C8 — `mark` is idempotent -/

/-- Claim C8: marking the same day twice yields the same durable storage
state as marking it once; the second write overwrites the marker with the
same empty content. -/
theorem c8_mark_idempotent (s : Storage) (d : String) :
    mark_billed_today (mark_billed_today s d) d = mark_billed_today s d := by
  unfold mark_billed_today
  exact upload_blob_idem s (markerBlobName d) ""

/-! Section: C1 — missing configuration and the token call -/

/-- A run with the subscription id absent from the configuration and the
marker absent from storage. -/
def c1Env : MeterEnv :=
  { happyMeterEnv with subscription_id := none }

/-- Claim C1, as stated, is false on the code: with `SUBSCRIPTION_ID`
absent and the marker absent, the run does terminate in
`SkippedMissingConfig`, but the token endpoint is called — `main` fetches
the MSI token (line 110) before reading and checking the configuration
(lines 112-116). -/
theorem c1_counterexample :
    (metering_phase c1Env []).1 = MeterOutcome.SkippedMissingConfig ∧
    Call.tokenFetch ∈ (metering_phase c1Env []).2.1 := by
  decide

/-- Claim C1 (amended): in every run with the marker absent, a successful
token fetch, and at least one of the three metering variables absent, the
Coordinator terminates in `SkippedMissingConfig` and performs no call to
the resolution or emission endpoints; the token endpoint, however, is
called, because the token fetch precedes the configuration check. -/
theorem c1_missing_config (env : MeterEnv) (s : Storage)
    (hmarker : has_billed_today s env.markerQueryFault env.checkDate
      = Except.ok false)
    (hcfg : env.subscription_id = none ∨ env.resource_group_name = none ∨
      env.plan_id = none)
    (htok : env.tokenResult.isSome = true) :
    (metering_phase env s).1 = MeterOutcome.SkippedMissingConfig ∧
    Call.tokenFetch ∈ (metering_phase env s).2.1 ∧
    ∀ c ∈ (metering_phase env s).2.1, c.isResolve = false ∧ c.isEmit = false := by
  obtain ⟨t, ht⟩ := Option.isSome_iff_exists.mp htok
  rcases hcfg with h | h | h <;>
    simp [metering_phase, metering_attempt, hmarker, ht, h, envTruthy,
      Call.isResolve, Call.isEmit]

/-- Concrete instance of `c1_missing_config`: subscription id absent, empty
storage. -/
theorem c1_missing_config_witness :
    (metering_phase c1Env []).1 = MeterOutcome.SkippedMissingConfig ∧
    Call.tokenFetch ∈ (metering_phase c1Env []).2.1 ∧
    ∀ c ∈ (metering_phase c1Env []).2.1, c.isResolve = false ∧ c.isEmit = false :=
  c1_missing_config c1Env [] rfl (Or.inl rfl) rfl

/-! Section: C2 — an existing marker short-circuits the run -/

/-- Claim C2: whenever the marker existence check returns true, the phase
terminates in `SkippedAlreadyBilled`, its trace is the single marker query,
no billable call (token, resolution, emission) occurs, and storage is
untouched; moreover any billable call in any trace requires the existence
check to have completed and returned `false`. -/
theorem c2_marker_present_skips (env : MeterEnv) (s : Storage) :
    (has_billed_today s env.markerQueryFault env.checkDate = Except.ok true →
      (metering_phase env s).1 = MeterOutcome.SkippedAlreadyBilled ∧
      (metering_phase env s).2.1 =
        [Call.markerCheck (markerBlobName env.checkDate)] ∧
      (∀ c ∈ (metering_phase env s).2.1, c.isBillable = false) ∧
      (metering_phase env s).2.2 = s) ∧
    ∀ c ∈ (metering_phase env s).2.1, c.isBillable = true →
      has_billed_today s env.markerQueryFault env.checkDate = Except.ok false := by
  cases hm : has_billed_today s env.markerQueryFault env.checkDate with
  | error u =>
    constructor
    · intro h; exact absurd h (by simp)
    · intro c hc hb
      simp [metering_phase, metering_attempt, MeterError.toOutcome, hm] at hc
      subst hc
      simp [Call.isBillable, Call.isTokenFetch, Call.isResolve, Call.isEmit] at hb
  | ok b =>
    cases b with
    | true =>
      constructor
      · intro h
        refine ⟨?_, ?_, ?_, ?_⟩ <;>
          simp [metering_phase, metering_attempt, hm, Call.isBillable,
            Call.isTokenFetch, Call.isResolve, Call.isEmit]
      · intro c hc hb
        simp [metering_phase, metering_attempt, hm] at hc
        subst hc
        simp [Call.isBillable, Call.isTokenFetch, Call.isResolve, Call.isEmit] at hb
    | false =>
      constructor
      · intro h; exact absurd h (by simp)
      · intro c hc hb; rfl

/-- A storage already holding the marker of the current day. -/
def c2Storage : Storage := [("billing/dailyRun_2025-06-01.marker", "")]

/-- Concrete instance of `c2_marker_present_skips`: with the marker of
2025-06-01 present, the run is skipped. -/
theorem c2_marker_present_skips_witness :
    (metering_phase happyMeterEnv c2Storage).1
      = MeterOutcome.SkippedAlreadyBilled :=
  ((c2_marker_present_skips happyMeterEnv c2Storage).1 rfl).1

/-! Section: C4 — failed emission leaves the marker absent -/

/-- A run whose usage emission returns a non-success status. -/
def c4Env : MeterEnv := { happyMeterEnv with emitOk := false }

/-- Claim C4: with the marker absent, configuration present, token and
resolution succeeding, and the emission failing, the run terminates in
`FailedEmission`, the storage is unchanged, the marker is still absent for
the checked day, and no marker write was ever attempted. -/
theorem c4_failed_emission (env : MeterEnv) (s : Storage)
    (hmarker : has_billed_today s env.markerQueryFault env.checkDate
      = Except.ok false)
    (htok : env.tokenResult.isSome = true)
    (hsid : envTruthy env.subscription_id = true)
    (hrg : envTruthy env.resource_group_name = true)
    (hpid : envTruthy env.plan_id = true)
    (hres : env.resolveResult.isSome = true)
    (hemit : env.emitOk = false) :
    (metering_phase env s).1 = MeterOutcome.FailedEmission ∧
    (metering_phase env s).2.2 = s ∧
    has_billed_today (metering_phase env s).2.2 env.markerQueryFault
      env.checkDate = Except.ok false ∧
    ∀ c ∈ (metering_phase env s).2.1, c.isMarkerWrite = false := by
  obtain ⟨t, ht⟩ := Option.isSome_iff_exists.mp htok
  obtain ⟨rid, hr⟩ := Option.isSome_iff_exists.mp hres
  simp [metering_phase, metering_attempt, MeterError.toOutcome, hmarker, ht, hr,
    hsid, hrg, hpid, hemit, Call.isMarkerWrite]

/-- Concrete instance of `c4_failed_emission`: empty storage, emission
fails. -/
theorem c4_failed_emission_witness :
    (metering_phase c4Env []).1 = MeterOutcome.FailedEmission ∧
    (metering_phase c4Env []).2.2 = [] ∧
    has_billed_today (metering_phase c4Env []).2.2 c4Env.markerQueryFault
      c4Env.checkDate = Except.ok false ∧
    ∀ c ∈ (metering_phase c4Env []).2.1, c.isMarkerWrite = false :=
  c4_failed_emission c4Env [] rfl rfl rfl rfl rfl rfl rfl

/-! Section: C5 — a `Billed` run makes the marker visible to later checks -/

/-- Claim C5: after a run reaches `Billed`, the marker existence check for
the billed day on the resulting storage returns true; the check and the
write both address the object keyed `billing/dailyRun_<day>.marker`, and
the write of exactly that key is in the trace of the run. -/
theorem c5_billed_marker_persists (env : MeterEnv) (s : Storage)
    (hB : (metering_phase env s).1 = MeterOutcome.Billed) :
    has_billed_today (metering_phase env s).2.2 false env.writeDate
      = Except.ok true ∧
    markerBlobName env.writeDate
      = "billing/dailyRun_" ++ env.writeDate ++ ".marker" ∧
    Call.markerWrite (markerBlobName env.writeDate)
      ∈ (metering_phase env s).2.1 := by
  rcases metering_phase_cases env s with
    ⟨_, h⟩ | ⟨_, h⟩ | ⟨_, _, h⟩ | ⟨_, _, _, h⟩ | ⟨_, _, _, _, h⟩ |
    ⟨_, _, _, _, _, h⟩ | ⟨_, _, _, _, _, _, h⟩ | ⟨_, _, _, _, _, _, h⟩ <;>
    rw [h] at hB ⊢ <;>
    simp_all [meterCallSeq, has_billed_today, get_blob_properties,
      mark_billed_today, lookupBlob_upload_self, markerBlobName]

/-- Concrete instance of `c5_billed_marker_persists`: the happy-path run on
empty storage. -/
theorem c5_billed_marker_persists_witness :
    has_billed_today (metering_phase happyMeterEnv []).2.2 false
      happyMeterEnv.writeDate = Except.ok true ∧
    markerBlobName happyMeterEnv.writeDate
      = "billing/dailyRun_" ++ happyMeterEnv.writeDate ++ ".marker" ∧
    Call.markerWrite (markerBlobName happyMeterEnv.writeDate)
      ∈ (metering_phase happyMeterEnv []).2.1 :=
  c5_billed_marker_persists happyMeterEnv [] rfl

/-! Section: C6 — metering errors are caught at the Coordinator boundary -/

/-- Claim C6: every exception the metering try-block raises — marker query,
token, resolution, emission, or marker write — is caught by the handler of
line 126: the phase always returns the logged terminal state of the raising
site, with the calls already attempted and the storage as it was; nothing
propagates to abort the run. -/
theorem c6_metering_errors_caught (env : MeterEnv) (s : Storage)
    (er : MeterError) (cs : List Call)
    (h : metering_attempt env s = Except.error (er, cs)) :
    metering_phase env s = (er.toOutcome, cs, s) := by
  simp [metering_phase, h]

/-- A run whose token fetch raises. -/
def c6Env : MeterEnv := { happyMeterEnv with tokenResult := none }

/-- Concrete instance of `c6_metering_errors_caught`: the failed token
fetch is caught and recorded as `FailedAuth`. -/
theorem c6_metering_errors_caught_witness :
    metering_phase c6Env [] =
      (MeterError.auth.toOutcome,
       [Call.markerCheck "billing/dailyRun_2025-06-01.marker",
        Call.tokenFetch], []) :=
  c6_metering_errors_caught c6Env [] MeterError.auth
    [Call.markerCheck "billing/dailyRun_2025-06-01.marker", Call.tokenFetch]
    rfl

/-! Section: C9 — the billing day is recomputed at each marker access -/

/-- A run whose marker check and marker write straddle UTC midnight. -/
def c9Env : MeterEnv := { happyMeterEnv with writeDate := "2025-06-02" }

/-- Claim C9: each marker access derives its blob key from the UTC date it
reads at its own call: every marker check in a trace addresses the key of
the check-time date and every marker write the key of the write-time date;
hence equal observed dates address the same object, and distinct observed
dates (a run straddling midnight) address distinct objects. -/
theorem c9_dates_read_at_call (env : MeterEnv) (s : Storage) :
    (∀ b, Call.markerCheck b ∈ (metering_phase env s).2.1 →
      b = markerBlobName env.checkDate) ∧
    (∀ b, Call.markerWrite b ∈ (metering_phase env s).2.1 →
      b = markerBlobName env.writeDate) ∧
    (env.checkDate = env.writeDate →
      markerBlobName env.checkDate = markerBlobName env.writeDate) ∧
    (env.checkDate ≠ env.writeDate →
      markerBlobName env.checkDate ≠ markerBlobName env.writeDate) := by
  obtain ⟨n, hn⟩ := metering_phase_calls_take env s
  refine ⟨?_, ?_, fun h => congrArg markerBlobName h,
    fun h hc => h (markerBlobName_inj _ _ hc)⟩
  · intro b hb
    rw [hn] at hb
    have hmem := List.take_subset n (meterCallSeq env) hb
    simpa [meterCallSeq] using hmem
  · intro b hb
    rw [hn] at hb
    have hmem := List.take_subset n (meterCallSeq env) hb
    simpa [meterCallSeq] using hmem

/-- Concrete instance of `c9_dates_read_at_call`: a run that checks on
2025-06-01 and writes on 2025-06-02 addresses two distinct marker
objects. -/
theorem c9_dates_read_at_call_witness :
    markerBlobName c9Env.checkDate ≠ markerBlobName c9Env.writeDate :=
  (c9_dates_read_at_call c9Env []).2.2.2 (by decide)

/-! Section: C3 — early-stage failures and the metering phase -/

/-- A run whose subscription enumeration fails; everything downstream would
succeed. -/
def c3MainEnv : MainEnv where
  listSubsOk := false
  topologyOk := true
  writeJsonOk := true
  diagramsOk := true
  drawing_storage_url := some "https://acct.blob.example"
  drawing_container_name := some "drawings"
  uploadJsonOk := true
  uploadMldOk := true
  uploadHldOk := true
  meter := happyMeterEnv

/-- Claim C3, as stated, is false on the code: when subscription
enumeration fails, `main` returns at line 41, so the run ends with only the
enumeration call attempted and the metering phase is never entered. -/
theorem c3_counterexample :
    (main c3MainEnv [] "2025-06-01_00-00-00").calls = [Call.listSubs] ∧
    (main c3MainEnv [] "2025-06-01_00-00-00").meterOutcome = none := by
  decide

/-- Claim C3 (amended): the metering phase runs exactly when every earlier
stage other than the three individual uploads succeeds — subscription
enumeration, topology collection, topology persist, diagram generation,
and a truthy storage configuration; a failure in any of those returns from
`main` before metering, while upload failures never block it. -/
theorem c3_metering_entered_iff (e : MainEnv) (s : Storage) (ts : String) :
    (main e s ts).meterOutcome.isSome =
      (e.listSubsOk && e.topologyOk && e.writeJsonOk && e.diagramsOk &&
       envTruthy e.drawing_storage_url && envTruthy e.drawing_container_name) := by
  cases h1 : e.listSubsOk <;> cases h2 : e.topologyOk <;>
    cases h3 : e.writeJsonOk <;> cases h4 : e.diagramsOk <;>
    cases h5 : envTruthy e.drawing_storage_url <;>
    cases h6 : envTruthy e.drawing_container_name <;>
    simp [main, h1, h2, h3, h4, h5, h6]

/-! Section: C10 — upload failures are contained in the upload helper -/

/-- A run reaching the upload stage in which all three uploads fail. -/
def c10MainEnv : MainEnv where
  listSubsOk := true
  topologyOk := true
  writeJsonOk := true
  diagramsOk := true
  drawing_storage_url := some "https://acct.blob.example"
  drawing_container_name := some "drawings"
  uploadJsonOk := false
  uploadMldOk := false
  uploadHldOk := false
  meter := happyMeterEnv

/-- Claim C10: once the upload stage is reached, all three artifact uploads
are attempted and the metering phase runs, whatever the success or failure
of each individual upload — `upload_file` catches its own exceptions. -/
theorem c10_upload_failures_isolated (e : MainEnv) (s : Storage) (ts : String)
    (h1 : e.listSubsOk = true) (h2 : e.topologyOk = true)
    (h3 : e.writeJsonOk = true) (h4 : e.diagramsOk = true)
    (h5 : envTruthy e.drawing_storage_url = true)
    (h6 : envTruthy e.drawing_container_name = true) :
    Call.uploadBlob (ts ++ "_network_topology.json") ∈ (main e s ts).calls ∧
    Call.uploadBlob (ts ++ "_network_diagram_MLD.drawio") ∈ (main e s ts).calls ∧
    Call.uploadBlob (ts ++ "_network_diagram_HLD.drawio") ∈ (main e s ts).calls ∧
    (main e s ts).meterOutcome = some (metering_phase e.meter s).1 := by
  simp [main, h1, h2, h3, h4, h5, h6, upload_file_eq]

/-- Concrete instance of `c10_upload_failures_isolated`: with all three
uploads failing, all three are attempted and metering still runs. -/
theorem c10_upload_failures_isolated_witness :
    Call.uploadBlob ("2025-06-01_00-00-00" ++ "_network_topology.json")
      ∈ (main c10MainEnv [] "2025-06-01_00-00-00").calls ∧
    Call.uploadBlob ("2025-06-01_00-00-00" ++ "_network_diagram_MLD.drawio")
      ∈ (main c10MainEnv [] "2025-06-01_00-00-00").calls ∧
    Call.uploadBlob ("2025-06-01_00-00-00" ++ "_network_diagram_HLD.drawio")
      ∈ (main c10MainEnv [] "2025-06-01_00-00-00").calls ∧
    (main c10MainEnv [] "2025-06-01_00-00-00").meterOutcome
      = some (metering_phase c10MainEnv.meter []).1 :=
  c10_upload_failures_isolated c10MainEnv [] "2025-06-01_00-00-00"
    rfl rfl rfl rfl rfl rfl

end DrawTrigger
